import Mathlib

/-!
Shallow embedding of the netatmo-weather-adapter sources (src/netatmo.ts,
src/adapter.ts, src/callback.ts) and proofs about them.

Conventions of the embedding:
* JavaScript numbers are modelled as `ℚ` (all arithmetic the adapter performs
  on them is exact), timestamps as `Int` milliseconds.
* A TypeScript optional string field (`token?: string`) is `Option String`;
  JS truthiness of such a field (`!this.config.token`) is `strFalsy`.
* `fetch` is modelled by passing the HTTP response the call would observe as
  an explicit argument (transport-level rejections are outside the model);
  a thrown exception is an `Except.error` or an explicit `Option String`
  error component, and a `throw` never mutates state that the source mutates
  only after its last throw site.
-/

/-- Model of a JavaScript value as stored in a gateway property: a number,
a string, a boolean, `NaN` or `undefined`. -/
inductive JSVal where
  | num (q : ℚ)
  | str (s : String)
  | boolean (b : Bool)
  | nan
  | undef
deriving DecidableEq, Repr

/-- JS loose equality `==` restricted to the value shapes the adapter stores in
properties: `NaN` is equal to nothing (including itself), `undefined` only to
`undefined`, numbers/strings/booleans structurally, and a boolean compared to a
number is coerced to `0`/`1` as JS does. -/
def jsEq : JSVal → JSVal → Bool
  | .nan, _ => false
  | _, .nan => false
  | .num a, .num b => a = b
  | .str a, .str b => a = b
  | .boolean a, .boolean b => a = b
  | .num a, .boolean b => a = (if b then (1 : ℚ) else 0)
  | .boolean a, .num b => (if a then (1 : ℚ) else 0) = b
  | .undef, .undef => true
  | _, _ => false

/-- JS loose inequality `!=`, as used by `updateProp`. -/
def jsNeq (a b : JSVal) : Bool := ! jsEq a b

/-- Truthiness test for an optional string config field: JS `!field` is true
exactly when the field is `undefined` or the empty string. -/
def strFalsy : Option String → Bool
  | none => true
  | some s => s = ""

/-- The `NetatmoConfig`/`AuthenticatedNetatmoConfig` interfaces of
src/netatmo.ts: credentials plus the mutable token state held by the
`Netatmo` class. -/
structure NetatmoConfig where
  client_id : String
  client_secret : String
  expires : Option Int := none
  refresh_token : Option String := none
  token : Option String := none
deriving DecidableEq, Repr

/-- The `NetatmoTokenResponse` interface of src/netatmo.ts. -/
structure NetatmoTokenResponse where
  expires_in : Int
  access_token : String
  refresh_token : String
deriving DecidableEq, Repr

/-- An HTTP response as the token-endpoint calls observe it (`response.ok`
and `response.status`). -/
structure HttpResponse where
  ok : Bool
  status : Nat
deriving DecidableEq, Repr

/-- The `NetatmoDeviceType` enum of src/netatmo.ts. -/
inductive NetatmoDeviceType where
  | Station
  | Outdoor
  | Wind
  | Rain
  | Indoor
  | Coach
deriving DecidableEq, Repr

/-- A remote Netatmo device as the API reports it (the `NetatmoDevice` family
of src/netatmo.ts, flattened over the union members; fields a given variant
does not carry keep their defaults). `data_type` entries and `dashboard_data`
keys are the enum string values (`"Temperature"`, ..., `"health_idx"`);
dashboard values are numbers. `hasCo2Calibrating` models
`hasOwnProperty('co2_calibrating')`. -/
structure RemoteDevice where
  _id : String
  module_name : String := ""
  reachable : Bool := true
  type : NetatmoDeviceType
  data_type : List String := []
  dashboard_data : List (String × ℚ) := []
  battery_percent : ℚ := 0
  rf_status : ℚ := 0
  wifi_status : ℚ := 0
  hasCo2Calibrating : Bool := false
  co2_calibrating : Bool := false
  home_name : String := ""
  name : String := ""
deriving DecidableEq, Repr

/-- A `NetatmoStationDevice`: the station's own fields plus its `modules`
list (split from `RemoteDevice` because Lean structures are not recursive). -/
structure StationDevice where
  base : RemoteDevice
  modules : List RemoteDevice := []
deriving DecidableEq, Repr

/-- The response observed by `getStationsData`: HTTP outcome plus the parsed
`data.body.devices`; `none` models a body whose `devices` is not an array. -/
structure StationsResponse where
  ok : Bool
  status : Nat
  devices : Option (List StationDevice) := none
deriving DecidableEq, Repr

/-- The response observed by `getHealthyHomeCoachData` (coaches have no
modules). -/
structure CoachResponse where
  ok : Bool
  status : Nat
  devices : Option (List RemoteDevice) := none
deriving DecidableEq, Repr

namespace Netatmo

/-- `get needsAuth` of src/netatmo.ts: `!this.config.token`. -/
def needsAuth (c : NetatmoConfig) : Bool := strFalsy c.token

/-- The action `initRefresh` takes: arm a timer with the given delay in
milliseconds, or call `refresh()` right away. -/
inductive RefreshAction where
  | schedule (delayMs : Int)
  | immediate
deriving DecidableEq, Repr

/-- `Netatmo.initRefresh` of src/netatmo.ts:
`const expiresIn = Date.now() - (this.config.expires ?? 0);`
`if (expiresIn > 0 && this.config.token) setTimeout(refresh, expiresIn) else refresh()`. -/
def initRefresh (c : NetatmoConfig) (now : Int) : RefreshAction :=
  let expiresIn := now - (c.expires.getD 0)
  if expiresIn > 0 ∧ ¬ strFalsy c.token then .schedule expiresIn else .immediate

/-- `Netatmo.refresh` of src/netatmo.ts, as a state transformer on the config:
clears the token, returns early (after logging) when no refresh token is held
or the POST is not an HTTP 200, and otherwise stores the new tokens and
expiry. The function is total: no path throws. -/
def refresh (c0 : NetatmoConfig) (resp : HttpResponse) (data : NetatmoTokenResponse)
    (now : Int) : NetatmoConfig :=
  let c := { c0 with token := some "" }
  if strFalsy c.refresh_token then c
  else if ¬ resp.ok ∨ resp.status ≠ 200 then c
  else { c with token := some data.access_token,
                expires := some (now + data.expires_in * 1000),
                refresh_token := some data.refresh_token }

/-- The query parameters of the redirected URL passed to resume
`Netatmo.authenticate` (`searchParams.get('state')` / `.get('code')`;
`none` models an absent parameter, so `searchParams.has(k)` is `isSome`). -/
structure RedirectQuery where
  state : Option String := none
  code : Option String := none
deriving DecidableEq, Repr

/-- Step 2 of `Netatmo.authenticate` of src/netatmo.ts (the body after the
`yield`), resumed with the redirected URL's query: returns the token store
after the call together with the thrown error, if any. `state` is the nonce
issued in step 1. The config component is returned unchanged on every throw,
because the source mutates `this.config` only after its last throw site. -/
def authenticate (c : NetatmoConfig) (state : String) (q : RedirectQuery)
    (resp : HttpResponse) (data : NetatmoTokenResponse) (now : Int) :
    NetatmoConfig × Option String :=
  if q.state.isNone ∨ q.state ≠ some state ∨ q.code.isNone then
    (c, some "Authentication flow failed.")
  else
    match q.code with
    | none => (c, some "Authentication flow could not retrieve the code.")
    | some code =>
      if code = "" then (c, some "Authentication flow could not retrieve the code.")
      else if ¬ resp.ok ∨ resp.status ≠ 200 then
        (c, some "Authentication flow failed while retrieving token.")
      else
        ({ c with expires := some (now + data.expires_in * 1000),
                  token := some data.access_token,
                  refresh_token := some data.refresh_token }, none)

/-- `Netatmo.getStationsData` of src/netatmo.ts: throws `Unauthorized` when no
token is held; on a non-200 response returns `[]`, clearing the token first
when the status is 403; on 200 returns `data.body.devices`, or `[]` when that
is not an array. -/
def getStationsData (c : NetatmoConfig) (resp : StationsResponse) :
    Except String (NetatmoConfig × List StationDevice) :=
  if strFalsy c.token then .error "Unauthorized"
  else if ¬ resp.ok ∨ resp.status ≠ 200 then
    if resp.status = 403 then .ok ({ c with token := some "" }, [])
    else .ok (c, [])
  else
    match resp.devices with
    | none => .ok (c, [])
    | some ds => .ok (c, ds)

/-- `Netatmo.getHealthyHomeCoachData` of src/netatmo.ts: same shape as
`getStationsData`. -/
def getHealthyHomeCoachData (c : NetatmoConfig) (resp : CoachResponse) :
    Except String (NetatmoConfig × List RemoteDevice) :=
  if strFalsy c.token then .error "Unauthorized"
  else if ¬ resp.ok ∨ resp.status ≠ 200 then
    if resp.status = 403 then .ok ({ c with token := some "" }, [])
    else .ok (c, [])
  else
    match resp.devices with
    | none => .ok (c, [])
    | some ds => .ok (c, ds)

end Netatmo

/-- A concrete config with a held token and expiry 2000, used in examples. -/
def sampleConfig : NetatmoConfig :=
  { client_id := "i", client_secret := "s", expires := some 2000, token := some "tok" }

example : Netatmo.initRefresh sampleConfig 1000 = .immediate := by decide

example : Netatmo.initRefresh sampleConfig 3000 = .schedule 1000 := by decide

/-! The constant tables of src/adapter.ts. -/

/-- The `UNITS` table of src/adapter.ts. -/
def UNITS : List (String × String) :=
  [("Temperature", "degree celsius"), ("Humidity", "percent"),
   ("Pressure", "hectopascal"), ("Noise", "dB"), ("CO2", "ppm"), ("Rain", "mm"),
   ("WindStrength", "km/h"), ("GustStrength", "km/h"),
   ("WindAngle", "°"), ("GustAngle", "°")]

/-- The `MIN` table of src/adapter.ts. -/
def MIN : List (String × ℚ) :=
  [("Temperature", -40), ("Pressure", 260), ("Noise", 35), ("CO2", 0),
   ("Rain", 0), ("WindAngle", -360), ("GustAngle", -360)]

/-- The `MAX` table of src/adapter.ts. -/
def MAX : List (String × ℚ) :=
  [("Temperature", 65), ("Pressure", 1260), ("Noise", 120), ("CO2", 5000),
   ("WindAngle", 360), ("GustAngle", 360)]

/-- The `CAPABILITES` table of src/adapter.ts. -/
def CAPABILITES : List (String × String) :=
  [("Temperature", "TemperatureProperty"), ("Humidity", "HumidityProperty"),
   ("Pressure", "BarometricPressureProperty"), ("CO2", "ConcentrationProperty")]

/-- The `DEVICE_CAPS` table of src/adapter.ts. -/
def DEVICE_CAPS : List (String × String) :=
  [("Temperature", "TemperatureSensor"), ("Humidity", "HumiditySensor"),
   ("Pressure", "BarometricPressureSensor"), ("CO2", "AirQualitySensor")]

/-- The `INTEGERS` list of src/adapter.ts. -/
def INTEGERS : List String := ["Humidity", "Noise", "CO2"]

/-- The `NICE_LABEL` table of src/adapter.ts. -/
def NICE_LABEL : List (String × String) :=
  [("CO2", "CO₂"), ("WindStrength", "Wind strength"),
   ("GustStrength", "Gust strength"), ("WindAngle", "Wind angle"),
   ("GustAngle", "Gust angle"), ("health_idx", "Health index")]

/-- The `STATION_TYPE` table of src/adapter.ts. -/
def STATION_TYPE : NetatmoDeviceType → String
  | .Station => "Netatmo Weather Station"
  | .Outdoor => "Netatmo Outdoor Module"
  | .Wind => "Netatmo Wind Gauge"
  | .Rain => "Netatmo Rain Gauge"
  | .Indoor => "Netatmo Indoor Module"
  | .Coach => "Netatmo Health Coach"

/-- The `HEALTH_IDX_MAP` list of src/adapter.ts. -/
def HEALTH_IDX_MAP : List String := ["Healthy", "Fine", "Fair", "Poor", "Unhealthy"]

/-- JS array indexing `l[q]` with a number index: the element when `q` is a
whole number within range, `undefined` otherwise (as `HEALTH_IDX_MAP[value]`
behaves in src/adapter.ts). -/
def jsIndex (l : List String) (q : ℚ) : JSVal :=
  if q.den = 1 ∧ 0 ≤ q.num then
    match l.get? q.num.toNat with
    | some s => .str s
    | none => .undef
  else .undef

namespace WeatherStation

/-- `WeatherStation.clamp` of src/adapter.ts:
`Math.max(Math.min(num, max), min)` with defaults `max=100`, `min=0`. -/
def clamp (num : ℚ) (mx : ℚ := 100) (mn : ℚ := 0) : ℚ :=
  Max.max (Min.min num mx) mn

/-- `WeatherStation.mapSignalToPercent` of src/adapter.ts:
`clamp(((min - signal) / range) * 90 + 10)`. -/
def mapSignalToPercent (signal : ℚ) (mn : ℚ) (range : ℚ := 30) : ℚ :=
  clamp (((mn - signal) / range) * 90 + 10)

/-- `WeatherStation.mapWifiToPercent` of src/adapter.ts. -/
def mapWifiToPercent (wifi : ℚ) : ℚ := mapSignalToPercent wifi 86

/-- `WeatherStation.mapRfToPercent` of src/adapter.ts. -/
def mapRfToPercent (rf : ℚ) : ℚ := mapSignalToPercent rf 90

/-- `WeatherStation.getAvailableProperties` of src/adapter.ts: a lone `Wind`
data type expands into the four wind readings. -/
def getAvailableProperties (dataType : List String) : List String :=
  if dataType.length = 1 ∧ dataType.head? = some "Wind" then
    ["WindStrength", "WindAngle", "GustStrength", "GustAngle"]
  else dataType

end WeatherStation

/-- The property description record built by the `WeatherStation` constructor
(the `props` object handed to `new NetatmoProperty`). -/
structure PropDescr where
  title : String
  typ : String
  unit : Option String := none
  atType : Option String := none
  minimum : Option ℚ := none
  maximum : Option ℚ := none
  enumVals : Option (List String) := none
  readOnly : Bool := true
deriving DecidableEq, Repr

/-- A `NetatmoProperty` of src/adapter.ts: its description and cached value. -/
structure NetatmoProperty where
  descr : PropDescr
  value : JSVal
deriving DecidableEq, Repr

/-- The state of a `WeatherStation` device of src/adapter.ts (the polling
fields `pollingFor`/`iid` are modelled separately by `PollState`). -/
structure LocalDevice where
  id : String
  name : String
  description : String
  atType : List String
  properties : List (String × NetatmoProperty)
  canUpdate : Bool
  hasParent : Bool
deriving DecidableEq, Repr

/-- Observable host-side effects of the adapter code: registry additions,
connectivity notifications, property-change notifications and console
warnings. -/
inductive GEvent where
  | deviceAdded (id : String)
  | connectedNotify (connected : Bool)
  | propertyChanged (name : String)
  | warn (msg : String)
deriving DecidableEq, Repr

/-- A thrown JS runtime error (dereferencing `undefined`). -/
inductive JSErr where
  | typeError (msg : String)
deriving DecidableEq, Repr

/-- `Map.set` on an association list: replace the value at the key if present,
append otherwise (insertion order preserved, as a JS `Map`). -/
def mapSet {α : Type} (l : List (String × α)) (k : String) (v : α) : List (String × α) :=
  if (l.lookup k).isSome then
    l.map (fun p => if p.1 = k then (k, v) else p)
  else l ++ [(k, v)]

/-- Truthiness of an `Option String` local (`stationName` in the constructor):
`undefined` and the empty string are falsy. -/
def optStrTruthy : Option String → Bool
  | none => false
  | some s => s ≠ ""

/-- JS string concatenation with a possibly-undefined operand:
`'x for ' + undefined` yields `"x for undefined"`. -/
def jsStringOf : Option String → String
  | none => "undefined"
  | some s => s

/-- One iteration of the `WeatherStation` constructor's property loop for data
type `dt`, accumulating the device `@type` list and the property map: builds
the `props` description (title, integer/number typing, unit, capability,
bounds), reads the initial value from `dashboard_data` (`NaN` when absent) and
special-cases `health_idx` as an enumerated string. -/
def buildProperty (d : RemoteDevice) (acc : List String × List (String × NetatmoProperty))
    (dt : String) : List String × List (String × NetatmoProperty) :=
  let title := (NICE_LABEL.lookup dt).getD dt
  let typ := if dt ∈ INTEGERS then "integer" else "number"
  let descr : PropDescr :=
    { title := title, typ := typ, unit := UNITS.lookup dt,
      atType := CAPABILITES.lookup dt,
      minimum := MIN.lookup dt, maximum := MAX.lookup dt }
  let deviceTypes := match DEVICE_CAPS.lookup dt with
    | some cap => if cap ∈ acc.1 then acc.1 else acc.1 ++ [cap]
    | none => acc.1
  let value : JSVal := match d.dashboard_data.lookup dt with
    | some q => .num q
    | none => .nan
  if dt = "health_idx" then
    let descr := { descr with typ := "string", enumVals := some HEALTH_IDX_MAP }
    let value := match value with
      | .num q => jsIndex HEALTH_IDX_MAP q
      | _ => .str ""
    (deviceTypes, mapSet acc.2 dt ⟨descr, value⟩)
  else
    (deviceTypes, mapSet acc.2 dt ⟨descr, value⟩)

/-- The `WeatherStation` constructor of src/adapter.ts as a function from the
remote device and the (optional) parent device to the constructed local
device and the host-side events it causes, or the error it throws.
`updatableType` is the `updatableType` getter of the class being constructed
(`Station` for `WeatherStation`, `Coach` for `HealthCoach`).
`adapter.handleDeviceAdded` is the `deviceAdded` event (its `startPolling`
side is modelled by `PollState` below); a throw emits no event because the
source throws before any effect. -/
def constructDevice (updatableType : NetatmoDeviceType) (d : RemoteDevice)
    (parent : Option LocalDevice) : Except String (LocalDevice × List GEvent) :=
  let isCoach := d.type = NetatmoDeviceType.Coach
  let isStation := d.type = NetatmoDeviceType.Station
  let isStationOrCoach := isStation ∨ isCoach
  let isModule := ¬ isStationOrCoach
  if isModule ∧ parent.isNone then
    .error "Module without parent station"
  else
    let stationName : Option String := none
    let stationName := if ¬ optStrTruthy stationName ∧ isStationOrCoach then
        some d.home_name else stationName
    let stationName := if ¬ optStrTruthy stationName ∧ isCoach then
        some d.name else stationName
    let stationName := if ¬ optStrTruthy stationName ∧ isModule ∧ parent.isSome then
        parent.map (·.name) else stationName
    let description := STATION_TYPE d.type ++ " for " ++ jsStringOf stationName
    let canUpdate := d.type = updatableType
    let warnEvents := if canUpdate ∧ parent.isSome then
        [GEvent.warn "Device can both update itself and has a parent."] else []
    let aps := WeatherStation.getAvailableProperties d.data_type
    let built := aps.foldl (buildProperty d) ([], [])
    let props := built.2
    let props := if isModule ∧ d.battery_percent ≠ 0 then
        mapSet props "battery"
          ⟨{ title := "Battery", typ := "number", unit := some "percent",
             atType := some "LevelProperty" }, .num d.battery_percent⟩
      else props
    let props := if isStationOrCoach ∧ d.wifi_status ≠ 0 then
        mapSet props "signal"
          ⟨{ title := "Signal strength", typ := "number", unit := some "percent",
             atType := some "LevelProperty" },
           .num (WeatherStation.mapWifiToPercent d.wifi_status)⟩
      else if isModule ∧ d.rf_status ≠ 0 then
        mapSet props "signal"
          ⟨{ title := "Signal strength", typ := "number", unit := some "percent",
             atType := some "LevelProperty" },
           .num (WeatherStation.mapRfToPercent d.rf_status)⟩
      else props
    let props := if isStationOrCoach ∧ d.hasCo2Calibrating then
        mapSet props "calibrating"
          ⟨{ title := "Calibrating CO₂", typ := "boolean" }, .boolean d.co2_calibrating⟩
      else props
    let dev : LocalDevice :=
      { id := d._id, name := d.module_name, description := description,
        atType := built.1, properties := props, canUpdate := canUpdate,
        hasParent := parent.isSome }
    let events := warnEvents ++ [GEvent.deviceAdded d._id] ++
      (if ¬ d.reachable then [GEvent.connectedNotify false] else [])
    .ok (dev, events)

/-- `WeatherStation.updateProp` of src/adapter.ts: `findProperty` the name
(dereferencing `undefined` when the device has no such property throws a
`TypeError`), then set the cached value and notify only when the new value
differs (JS `!=`) from the cached one. -/
def updateProp (dev : LocalDevice) (propertyName : String) (value : JSVal) :
    Except JSErr (LocalDevice × List GEvent) :=
  match dev.properties.lookup propertyName with
  | none => .error (.typeError "Cannot read properties of undefined (reading value)")
  | some p =>
    if jsNeq p.value value then
      .ok ({ dev with properties := mapSet dev.properties propertyName { p with value := value } },
           [.propertyChanged propertyName])
    else .ok (dev, [])

/-- The data-type loop of `WeatherStation.updateProperties`: for every
available data type present in `dashboard_data`, update the property,
mapping `health_idx` through `HEALTH_IDX_MAP` on coaches. -/
def updateDataTypes (dev0 : LocalDevice) (d : RemoteDevice) :
    Except JSErr (LocalDevice × List GEvent) :=
  let isCoach := d.type = NetatmoDeviceType.Coach
  (WeatherStation.getAvailableProperties d.data_type).foldlM
    (fun (acc : LocalDevice × List GEvent) dt =>
      match d.dashboard_data.lookup dt with
      | none => pure acc
      | some q => do
        let v := if dt = "health_idx" ∧ isCoach then jsIndex HEALTH_IDX_MAP q
          else JSVal.num q
        let r ← updateProp acc.1 dt v
        pure (r.1, acc.2 ++ r.2))
    (dev0, [])

/-- `WeatherStation.updateProperties` of src/adapter.ts, on the possibly
`undefined` remote device it is handed (`data[0]` may be `undefined`):
notifies connectivity first, returns untouched when the device is
unreachable, and otherwise updates the data-type properties and the
conditional `battery`/`signal`/`calibrating` properties. -/
def updateProperties (dev : LocalDevice) (od : Option RemoteDevice) :
    Except JSErr (LocalDevice × List GEvent) :=
  match od with
  | none => .error (.typeError "Cannot read properties of undefined (reading reachable)")
  | some d =>
    if ¬ d.reachable then .ok (dev, [GEvent.connectedNotify d.reachable])
    else do
      let r1 ← updateDataTypes dev d
      let isCoach := d.type = NetatmoDeviceType.Coach
      let isStationOrCoach := d.type = NetatmoDeviceType.Station ∨ isCoach
      let isModule := ¬ isStationOrCoach
      let r2 ← if isModule ∧ d.battery_percent ≠ 0 then
          updateProp r1.1 "battery" (.num d.battery_percent)
        else pure (r1.1, [])
      let r3 ← if isStationOrCoach ∧ d.wifi_status ≠ 0 then
          updateProp r2.1 "signal" (.num (WeatherStation.mapWifiToPercent d.wifi_status))
        else if isModule ∧ d.rf_status ≠ 0 then
          updateProp r2.1 "signal" (.num (WeatherStation.mapRfToPercent d.rf_status))
        else pure (r2.1, [])
      let r4 ← if isStationOrCoach ∧ d.hasCo2Calibrating then
          updateProp r3.1 "calibrating" (.boolean d.co2_calibrating)
        else pure (r3.1, [])
      pure (r4.1, [GEvent.connectedNotify d.reachable] ++ r1.2 ++ r2.2 ++ r3.2 ++ r4.2)

namespace NetatmoWeatherAdapter

/-- The success continuation of `NetatmoWeatherAdapter.updateDevice` of
src/adapter.ts for the station branch, applied to the device list the fetch
resolved with: `const station = data[0]; device.updateProperties(station);`
then, for each module of the station present in the registry, update it. The
registry is the adapter's `devices` map restricted to the ids it contains. -/
def updateDevice (registry : List (String × LocalDevice)) (dev : LocalDevice)
    (data : List StationDevice) :
    Except JSErr (LocalDevice × List (String × LocalDevice) × List GEvent) := do
  let station := data.head?
  let r ← updateProperties dev (station.map (·.base))
  match station with
  | none => pure (r.1, registry, r.2)
  | some st =>
    let mr ← st.modules.foldlM
      (fun (acc : List (String × LocalDevice) × List GEvent) m =>
        match acc.1.lookup m._id with
        | some mdev => do
          let rm ← updateProperties mdev (some m)
          pure (mapSet acc.1 m._id rm.1, acc.2 ++ rm.2)
        | none => pure acc)
      (registry, [])
    pure (r.1, mr.1, r.2 ++ mr.2)

end NetatmoWeatherAdapter

/-- The polling state of one self-updating (`canUpdate = true`) device of
src/adapter.ts: the `pollingFor` requester-id set and the `iid` interval
handle, together with the host timer table (`live` is the set of interval
timers currently running for this device, `nextT` a source of fresh timer
handles), so that a leaked or double-started interval would be visible. -/
structure PollState where
  pollingFor : Finset String
  iid : Option ℕ
  live : Finset ℕ
  nextT : ℕ
deriving DecidableEq

/-- The state a `WeatherStation` starts in: `pollingFor = new Set()`, no
interval. -/
def PollState.init : PollState := ⟨∅, none, ∅, 0⟩

/-- `WeatherStation.startPolling` of src/adapter.ts on a self-updating device:
add the requester id to `pollingFor`; start the interval only when `iid` is
unset. -/
def startPolling (s : PollState) (id : String) : PollState :=
  match s.iid with
  | some _ => { s with pollingFor := insert id s.pollingFor }
  | none =>
    { pollingFor := insert id s.pollingFor, iid := some s.nextT,
      live := insert s.nextT s.live, nextT := s.nextT + 1 }

/-- `WeatherStation.stopPolling` of src/adapter.ts on a self-updating device:
only acts when an interval is running; removes the requester id and, when the
set becomes empty, clears the interval, unsets `iid` and clears the set. -/
def stopPolling (s : PollState) (id : String) : PollState :=
  match s.iid with
  | some t =>
    let pf := s.pollingFor.erase id
    if pf.card = 0 then
      { s with pollingFor := ∅, iid := none, live := s.live.erase t }
    else { s with pollingFor := pf }
  | none => s

/-- A call to `startPolling` or `stopPolling` with a requester id. -/
inductive PollOp where
  | start (id : String)
  | stop (id : String)
deriving DecidableEq

/-- Run a sequence of polling calls against a state. -/
def runPollOps (s : PollState) : List PollOp → PollState
  | [] => s
  | op :: rest =>
    runPollOps (match op with
      | .start id => startPolling s id
      | .stop id => stopPolling s id) rest

/-- The `CallbackType` enum of src/callback.ts. -/
inductive CallbackType where
  | CALLBACK_SUCCEEDED
deriving DecidableEq, Repr

/-- The `CallbackMessage` interface of src/callback.ts (its `data` is the
request body, a string in this model). -/
structure CallbackMessage where
  type : CallbackType
  data : String
deriving DecidableEq, Repr

/-- A `CallbackListener` of src/callback.ts: its id and the resolution state
of its `successPromise` (a promise resolves at most once; later calls to the
stored `resolve` are no-ops). -/
structure CallbackListener where
  id : String
  resolved : Option String := none
deriving DecidableEq, Repr

/-- `CallbackListener.handleEvent` of src/callback.ts: on a
`CALLBACK_SUCCEEDED` message, resolve the success promise with the message
data (no effect if it already resolved). -/
def CallbackListener.handleEvent (l : CallbackListener) (m : CallbackMessage) :
    CallbackListener :=
  if m.type = CallbackType.CALLBACK_SUCCEEDED then
    match l.resolved with
    | none => { l with resolved := some m.data }
    | some _ => l
  else l

/-- The `APIRequest` handed to `CallbackAPIHandler.handleRequest` (its body is
the redirected-URL query string). -/
structure APIRequest where
  method : String
  path : String
  body : String
deriving DecidableEq, Repr

namespace CallbackAPIHandler

/-- `CallbackAPIHandler.addListener` of src/callback.ts:
`listeners.set(listener.id, listener)` on the id-keyed map, modelled as a
list unique in ids with insertion order. -/
def addListener (listeners : List CallbackListener) (l : CallbackListener) :
    List CallbackListener :=
  if listeners.any (fun x => x.id = l.id) then
    listeners.map (fun x => if x.id = l.id then l else x)
  else listeners ++ [l]

/-- `CallbackAPIHandler.removeListener` of src/callback.ts. -/
def removeListener (listeners : List CallbackListener) (l : CallbackListener) :
    List CallbackListener :=
  listeners.filter (fun x => x.id ≠ l.id)

/-- `CallbackAPIHandler.emit` of src/callback.ts: deliver the message to every
listener in the map. -/
def emit (listeners : List CallbackListener) (m : CallbackMessage) :
    List CallbackListener :=
  listeners.map (fun l => l.handleEvent m)

/-- `CallbackAPIHandler.handleRequest` of src/callback.ts: answers 404 when
the method is not POST AND the path is not `/callback` (the source uses `&&`),
and otherwise emits the body to the listeners and answers 200. Returns the
listener map after the call and the response status. -/
def handleRequest (listeners : List CallbackListener) (request : APIRequest) :
    List CallbackListener × Nat :=
  if request.method ≠ "POST" ∧ request.path ≠ "/callback" then
    (listeners, 404)
  else
    (emit listeners ⟨CallbackType.CALLBACK_SUCCEEDED, request.body⟩, 200)

end CallbackAPIHandler

/-- Modelled from the spec wording of §4.4.1, for comparison with the source
function: `clamp(((baseline - raw) / range) * 90 + 10, min=0, max=100)`. -/
def mapSignalToPercentSpec (raw baseline : ℚ) (range : ℚ := 30) : ℚ :=
  Max.max (Min.min (((baseline - raw) / range) * 90 + 10) 100) 0

/-- C6: `mapSignalToPercent(raw, baseline, range=30)` equals
`clamp(((baseline - raw) / range) * 90 + 10)` bounded to [0, 100]; the three
documented sample values hold; wifi signals use baseline 86 and RF signals
baseline 90. -/
theorem c6_mapSignalToPercent :
    (∀ raw baseline range, WeatherStation.mapSignalToPercent raw baseline range =
      mapSignalToPercentSpec raw baseline range)
    ∧ WeatherStation.mapSignalToPercent 86 86 = 10
    ∧ WeatherStation.mapSignalToPercent 56 86 = 100
    ∧ WeatherStation.mapSignalToPercent 116 86 = 0
    ∧ (∀ w, WeatherStation.mapWifiToPercent w = WeatherStation.mapSignalToPercent w 86)
    ∧ (∀ r, WeatherStation.mapRfToPercent r = WeatherStation.mapSignalToPercent r 90) := by
  refine ⟨fun raw baseline range => rfl, ?_, ?_, ?_, fun w => rfl, fun r => rfl⟩ <;>
    · simp only [WeatherStation.mapSignalToPercent, WeatherStation.clamp]
      norm_num

/-- C2 (code bug): `initRefresh` computes `Date.now() - expires` — the time
SINCE expiry — where the spec's scheduling rule needs the time UNTIL expiry.
With a held token and the expiry timestamp (2000) in the future of now
(1000), the code refreshes immediately instead of arming a timer for the
expiry; with the expiry (2000) already in the past at now = 3000, it arms a
timer for 1000 ms (firing at 4000) instead of refreshing immediately. -/
theorem c2_initRefresh_inverted :
    Netatmo.initRefresh sampleConfig 1000 = Netatmo.RefreshAction.immediate
    ∧ Netatmo.initRefresh sampleConfig 3000 = Netatmo.RefreshAction.schedule 1000 :=
  ⟨by decide, by decide⟩

/-- C3: a call to `getStationsData` or `getHealthyHomeCoachData` made with a
token held that receives an HTTP 403 clears the stored token (so `needsAuth`
becomes true afterwards) and returns the empty device list, without
throwing. -/
theorem c3_403_clears_token :
    ∀ (c : NetatmoConfig) (rs : StationsResponse) (rc : CoachResponse),
      Netatmo.needsAuth c = false → rs.status = 403 → rc.status = 403 →
      Netatmo.getStationsData c rs = .ok ({ c with token := some "" }, [])
      ∧ Netatmo.getHealthyHomeCoachData c rc = .ok ({ c with token := some "" }, [])
      ∧ Netatmo.needsAuth { c with token := some "" } = true := by
  intro c rs rc hna hs hc
  have ht : strFalsy c.token = false := hna
  refine ⟨?_, ?_, by simp [Netatmo.needsAuth, strFalsy]⟩
  · simp [Netatmo.getStationsData, ht, hs]
  · simp [Netatmo.getHealthyHomeCoachData, ht, hc]

/-- Witness for C3 at a concrete authenticated config and concrete 403
responses. -/
theorem c3_403_clears_token_witness :
    Netatmo.getStationsData sampleConfig ⟨false, 403, none⟩ =
      .ok ({ sampleConfig with token := some "" }, [])
    ∧ Netatmo.getHealthyHomeCoachData sampleConfig ⟨false, 403, none⟩ =
      .ok ({ sampleConfig with token := some "" }, [])
    ∧ Netatmo.needsAuth { sampleConfig with token := some "" } = true :=
  c3_403_clears_token sampleConfig ⟨false, 403, none⟩ ⟨false, 403, none⟩
    (by decide) rfl rfl

/-- C4: `refresh` is a total function (it never throws): with no refresh token
held it just returns with the access token cleared; the result never keeps a
stale access token (it is the cleared token or the freshly issued one); when
the POST is not an HTTP 200 success it returns with the token still cleared,
so `needsAuth` becomes true; and only on HTTP 200 are the new access token,
refresh token and expiry stored. -/
theorem c4_refresh :
    ∀ (c : NetatmoConfig) (resp : HttpResponse) (data : NetatmoTokenResponse) (now : Int),
      (strFalsy c.refresh_token = true →
        Netatmo.refresh c resp data now = { c with token := some "" })
      ∧ ((Netatmo.refresh c resp data now).token = some ""
        ∨ (Netatmo.refresh c resp data now).token = some data.access_token)
      ∧ (¬ (resp.ok = true ∧ resp.status = 200) →
          Netatmo.refresh c resp data now = { c with token := some "" }
          ∧ Netatmo.needsAuth (Netatmo.refresh c resp data now) = true)
      ∧ (resp.ok = true → resp.status = 200 → strFalsy c.refresh_token = false →
          Netatmo.refresh c resp data now =
            { c with token := some data.access_token,
                     expires := some (now + data.expires_in * 1000),
                     refresh_token := some data.refresh_token }) := by
  intro c resp data now
  have hclear : ∀ x : NetatmoConfig, x.token = some "" → Netatmo.needsAuth x = true := by
    intro x hx
    simp [Netatmo.needsAuth, hx, strFalsy]
  by_cases h1 : strFalsy c.refresh_token = true
  · have hr : Netatmo.refresh c resp data now = { c with token := some "" } := by
      simp [Netatmo.refresh, h1]
    exact ⟨fun _ => hr, Or.inl (by rw [hr]), fun _ => ⟨hr, hclear _ (by rw [hr])⟩,
      fun _ _ hf => absurd h1 (by simp [hf])⟩
  · by_cases h2 : resp.ok = true ∧ resp.status = 200
    · have hr : Netatmo.refresh c resp data now =
          { c with token := some data.access_token,
                   expires := some (now + data.expires_in * 1000),
                   refresh_token := some data.refresh_token } := by
        simp [Netatmo.refresh, h1, h2.1, h2.2]
      exact ⟨fun h => absurd h h1, Or.inr (by rw [hr]), fun hf => absurd h2 hf,
        fun _ _ _ => hr⟩
    · have hcond : ¬ (resp.ok = true) ∨ ¬ (resp.status = 200) := by tauto
      have hr : Netatmo.refresh c resp data now = { c with token := some "" } := by
        rcases hcond with h | h <;> simp [Netatmo.refresh, h1, h]
      exact ⟨fun h => absurd h h1, Or.inl (by rw [hr]),
        fun _ => ⟨hr, hclear _ (by rw [hr])⟩, fun hok h200 _ => absurd ⟨hok, h200⟩ h2⟩

/-- C7: when the remote device reports `reachable = false`, `updateProperties`
emits exactly the disconnect notification and returns with the device state —
in particular every cached property value — unchanged, and no property-change
notification is produced in that cycle. -/
theorem c7_unreachable_is_frame :
    ∀ (dev : LocalDevice) (d : RemoteDevice), d.reachable = false →
      updateProperties dev (some d) = .ok (dev, [GEvent.connectedNotify false]) := by
  intro dev d h
  simp [updateProperties, h]

/-- A concrete config with no token held, as `authenticate` is entered. -/
def unauthConfig : NetatmoConfig := { client_id := "i", client_secret := "s" }

/-- C1: resuming `authenticate` with a redirect whose query lacks `state`,
whose `state` differs from the issued nonce, whose `code` is absent, or for
which the code-exchange POST is not an HTTP 200, throws and leaves the (still
unauthenticated) token store untouched; tokens are stored only when the state
matches, a (non-empty) code is present and the exchange returns HTTP 200. -/
theorem c1_authenticate :
    ∀ (c : NetatmoConfig) (nonce : String) (q : Netatmo.RedirectQuery)
      (resp : HttpResponse) (data : NetatmoTokenResponse) (now : Int),
      Netatmo.needsAuth c = true →
      ((q.state = none ∨ q.state ≠ some nonce ∨ q.code = none ∨
          ¬ (resp.ok = true ∧ resp.status = 200)) →
        (Netatmo.authenticate c nonce q resp data now).2.isSome = true
        ∧ (Netatmo.authenticate c nonce q resp data now).1 = c
        ∧ Netatmo.needsAuth (Netatmo.authenticate c nonce q resp data now).1 = true)
      ∧ ((Netatmo.authenticate c nonce q resp data now).2 = none →
        q.state = some nonce
        ∧ (∃ cd, q.code = some cd ∧ cd ≠ "")
        ∧ resp.ok = true ∧ resp.status = 200
        ∧ (Netatmo.authenticate c nonce q resp data now).1.token = some data.access_token
        ∧ (Netatmo.authenticate c nonce q resp data now).1.refresh_token = some data.refresh_token
        ∧ (Netatmo.authenticate c nonce q resp data now).1.expires =
            some (now + data.expires_in * 1000)) := by
  intro c nonce q resp data now hna
  by_cases hc1 : q.state.isNone = true ∨ q.state ≠ some nonce ∨ q.code.isNone = true
  · have hr : Netatmo.authenticate c nonce q resp data now =
        (c, some "Authentication flow failed.") := by
      unfold Netatmo.authenticate
      rw [if_pos hc1]
    rw [hr]
    exact ⟨fun _ => ⟨rfl, rfl, hna⟩, fun h => by cases h⟩
  · push_neg at hc1
    obtain ⟨hs1, hs2, hs3⟩ := hc1
    obtain ⟨cd, hcd⟩ : ∃ cd, q.code = some cd := by
      rcases hq : q.code with _ | cd
      · rw [hq] at hs3
        exact absurd rfl hs3
      · exact ⟨cd, rfl⟩
    by_cases hempty : cd = ""
    · have hr : Netatmo.authenticate c nonce q resp data now =
          (c, some "Authentication flow could not retrieve the code.") := by
        unfold Netatmo.authenticate
        rw [if_neg (by push_neg; exact ⟨hs1, hs2, hs3⟩)]
        rw [hcd]
        simp [hempty]
      rw [hr]
      exact ⟨fun _ => ⟨rfl, rfl, hna⟩, fun h => by cases h⟩
    · by_cases hresp : resp.ok = true ∧ resp.status = 200
      · have hr : Netatmo.authenticate c nonce q resp data now =
            ({ c with expires := some (now + data.expires_in * 1000),
                      token := some data.access_token,
                      refresh_token := some data.refresh_token }, none) := by
          unfold Netatmo.authenticate
          rw [if_neg (by push_neg; exact ⟨hs1, hs2, hs3⟩)]
          rw [hcd]
          simp [hempty, hresp.1, hresp.2]
        rw [hr]
        constructor
        · intro hfail
          rcases hfail with h | h | h | h
          · rw [h] at hs2
            cases hs2
          · exact absurd hs2 h
          · rw [h] at hcd
            cases hcd
          · exact absurd hresp h
        · exact fun _ => ⟨hs2, ⟨cd, hcd, hempty⟩, hresp.1, hresp.2, rfl, rfl, rfl⟩
      · have hcond : ¬ (resp.ok = true) ∨ ¬ (resp.status = 200) := by tauto
        have hr : Netatmo.authenticate c nonce q resp data now =
            (c, some "Authentication flow failed while retrieving token.") := by
          unfold Netatmo.authenticate
          rw [if_neg (by push_neg; exact ⟨hs1, hs2, hs3⟩)]
          rw [hcd]
          rcases hcond with h | h <;> simp [hempty, h]
        rw [hr]
        exact ⟨fun _ => ⟨rfl, rfl, hna⟩, fun h => by cases h⟩

/-- Witness for C1: a successful resume at a matching state, present code and
HTTP 200 stores the issued access token. -/
theorem c1_authenticate_witness :
    (Netatmo.authenticate unauthConfig "abc" ⟨some "abc", some "c1"⟩ ⟨true, 200⟩
      ⟨3600, "at", "rt"⟩ 0).1.token = some "at" := by
  have h := c1_authenticate unauthConfig "abc" ⟨some "abc", some "c1"⟩ ⟨true, 200⟩
    ⟨3600, "at", "rt"⟩ 0 (by decide)
  exact (h.2 (by decide)).2.2.2.2.1

/-- Witness for C7 on a concrete device with one cached property. -/
theorem c7_unreachable_is_frame_witness :
    updateProperties
      { id := "dev1", name := "n", description := "", atType := [],
        properties := [("Temperature", ⟨{ title := "Temperature", typ := "number" }, .num 21⟩)],
        canUpdate := true, hasParent := false }
      (some { _id := "dev1", reachable := false, type := .Station,
              data_type := ["Temperature"], dashboard_data := [("Temperature", 25)] }) =
      .ok ({ id := "dev1", name := "n", description := "", atType := [],
             properties := [("Temperature", ⟨{ title := "Temperature", typ := "number" }, .num 21⟩)],
             canUpdate := true, hasParent := false }, [GEvent.connectedNotify false]) :=
  c7_unreachable_is_frame _ _ rfl


/-- A concrete module-class remote device (an outdoor module). -/
def outdoorModule : RemoteDevice :=
  { _id := "m1", module_name := "Outdoor", type := NetatmoDeviceType.Outdoor,
    data_type := ["Temperature", "Humidity"],
    dashboard_data := [("Temperature", 7), ("Humidity", 60)] }

/-- C8: constructing a local device for a module-class remote device (any type
other than Station or Coach) without a parent throws "Module without parent
station" — and, since every host-side event (in particular `deviceAdded`) is
emitted only on the success path, no device is registered — while construction
of a module succeeds exactly when a parent is supplied. -/
theorem c8_module_requires_parent :
    ∀ (u : NetatmoDeviceType) (d : RemoteDevice) (p : Option LocalDevice),
      d.type ≠ NetatmoDeviceType.Station → d.type ≠ NetatmoDeviceType.Coach →
      constructDevice u d none = .error "Module without parent station"
      ∧ (∀ r, constructDevice u d p = .ok r → p.isSome = true)
      ∧ (p.isSome = true → ∃ r, constructDevice u d p = .ok r) := by
  intro u d p hstation hcoach
  have hmod : ¬ (d.type = NetatmoDeviceType.Station ∨ d.type = NetatmoDeviceType.Coach) := by
    tauto
  have herr : constructDevice u d none = .error "Module without parent station" := by
    simp [constructDevice, hmod]
  refine ⟨herr, ?_, ?_⟩
  · intro r hr
    rcases p with _ | pd
    · rw [herr] at hr
      cases hr
    · rfl
  · intro hsome
    rcases p with _ | pd
    · cases hsome
    · cases hres : constructDevice u d (some pd) with
      | error e =>
        exfalso
        simp [constructDevice, hmod] at hres
      | ok r => exact ⟨r, rfl⟩

/-- Witness for C8: the concrete outdoor module without a parent is rejected. -/
theorem c8_module_requires_parent_witness :
    constructDevice NetatmoDeviceType.Station outdoorModule none =
      .error "Module without parent station" :=
  (c8_module_requires_parent NetatmoDeviceType.Station outdoorModule none
    (by decide) (by decide)).1

/-- C9 counterexample: a GET request at the fixed path `/callback` is not
answered with 404 — the `&&` in `handleRequest` only rejects requests that
miss on both the method and the path — and its body is delivered to both of
two registered pending waiters, not to exactly one selected by listener id. -/
theorem c9_counterexample :
    CallbackAPIHandler.handleRequest [⟨"a", none⟩, ⟨"b", none⟩]
      ⟨"GET", "/callback", "state=1&code=2"⟩ =
      ([⟨"a", some "state=1&code=2"⟩, ⟨"b", some "state=1&code=2"⟩], 200) := by
  decide

/-- Every pending listener's promise resolves with the emitted body; an
already-resolved listener keeps its value. -/
theorem emit_resolves (ls : List CallbackListener) (body : String) :
    (CallbackAPIHandler.emit ls ⟨CallbackType.CALLBACK_SUCCEEDED, body⟩).map
        (fun l => l.resolved) =
      ls.map (fun l => some (l.resolved.getD body)) := by
  induction ls with
  | nil => rfl
  | cons hd tl ih =>
    simp only [CallbackAPIHandler.emit, List.map_cons] at *
    refine congrArg₂ List.cons ?_ ih
    rcases hd with ⟨i, res⟩
    rcases res with _ | v <;> rfl

/-- C9 (amended): `handleRequest` answers 404 (delivering nothing) exactly for
requests whose method is not POST AND whose path is not `/callback`; every
other request — including a non-POST at the fixed path — is answered 200 and
its body is broadcast to every registered listener, resolving every pending
waiter's promise (not just one selected by listener id). -/
theorem c9_callback_amended :
    ∀ (listeners : List CallbackListener) (req : APIRequest),
      (req.method ≠ "POST" ∧ req.path ≠ "/callback" →
        CallbackAPIHandler.handleRequest listeners req = (listeners, 404))
      ∧ ((req.method = "POST" ∨ req.path = "/callback") →
        (CallbackAPIHandler.handleRequest listeners req).2 = 200
        ∧ (CallbackAPIHandler.handleRequest listeners req).1 =
            CallbackAPIHandler.emit listeners ⟨CallbackType.CALLBACK_SUCCEEDED, req.body⟩
        ∧ (CallbackAPIHandler.handleRequest listeners req).1.map (fun l => l.resolved) =
            listeners.map (fun l => some (l.resolved.getD req.body))) := by
  intro ls req
  constructor
  · intro h
    unfold CallbackAPIHandler.handleRequest
    rw [if_pos h]
  · intro h
    have hcond : ¬ (req.method ≠ "POST" ∧ req.path ≠ "/callback") := by tauto
    have hr : CallbackAPIHandler.handleRequest ls req =
        (CallbackAPIHandler.emit ls ⟨CallbackType.CALLBACK_SUCCEEDED, req.body⟩, 200) := by
      unfold CallbackAPIHandler.handleRequest
      rw [if_neg hcond]
    rw [hr]
    exact ⟨rfl, rfl, emit_resolves ls req.body⟩

/-- C10: when the poll-cycle fetch resolves with the empty device list — the
value `getStationsData` returns for any non-200 response and for a 200 whose
body carries no array — the success continuation of `updateDevice` reads
element 0 (`undefined`) and hands it to `updateProperties`, whose very first
dereference (`netatmoDevice.reachable`) raises a `TypeError`; the cycle is
not treated as "no devices, retry later". -/
theorem c10_empty_fetch_typeerror :
    ∀ (registry : List (String × LocalDevice)) (dev : LocalDevice),
      NetatmoWeatherAdapter.updateDevice registry dev [] =
        .error (.typeError "Cannot read properties of undefined (reading reachable)")
      ∧ (∀ (c : NetatmoConfig) (resp : StationsResponse),
          Netatmo.needsAuth c = false →
          (¬ (resp.ok = true ∧ resp.status = 200) →
            Netatmo.getStationsData c resp =
              .ok ((if resp.status = 403 then { c with token := some "" } else c), []))
          ∧ (resp.ok = true → resp.status = 200 → resp.devices = none →
            Netatmo.getStationsData c resp = .ok (c, []))) := by
  intro registry dev
  constructor
  · rfl
  · intro c resp hna
    have ht : strFalsy c.token = false := hna
    constructor
    · intro hfail
      have hcond : ¬ (resp.ok = true) ∨ ¬ (resp.status = 200) := by tauto
      by_cases h403 : resp.status = 403
      · rcases hcond with h | h <;> simp [Netatmo.getStationsData, ht, h, h403]
      · rcases hcond with h | h <;> simp [Netatmo.getStationsData, ht, h, h403]
    · intro hok h200 hdev
      simp [Netatmo.getStationsData, ht, hok, h200, hdev]

/-- Invariant tying a polling state's interval handle, the host timer table
and the requester set: the one live timer is the one `iid` holds (none when
`iid` is unset), and an interval runs exactly while the requester set is
non-empty. -/
def PollInv (s : PollState) : Prop :=
  (∀ t, s.iid = some t → s.live = {t})
  ∧ (s.iid = none → s.live = ∅)
  ∧ (s.iid.isSome = true ↔ s.pollingFor.Nonempty)

/-- The initial polling state satisfies the invariant. -/
theorem pollInv_init : PollInv PollState.init := by
  refine ⟨?_, ?_, ?_⟩
  · intro t h
    cases h
  · intro _
    rfl
  · simp [PollState.init]

/-- `startPolling` arms an interval when none runs. -/
theorem startPolling_isSome (s : PollState) (id : String) :
    (startPolling s id).iid.isSome = true := by
  cases hiid : s.iid <;> simp [startPolling, hiid]

/-- `startPolling` preserves the polling invariant. -/
theorem pollInv_start (s : PollState) (id : String) (hs : PollInv s) :
    PollInv (startPolling s id) := by
  obtain ⟨h1, h2, h3⟩ := hs
  cases hiid : s.iid with
  | some t =>
    have hres : startPolling s id = { s with pollingFor := insert id s.pollingFor } := by
      simp [startPolling, hiid]
    rw [hres]
    refine ⟨fun t' ht' => h1 t' ht', fun hnone => h2 hnone, ?_⟩
    constructor
    · intro _
      exact ⟨id, Finset.mem_insert_self id s.pollingFor⟩
    · intro _
      rw [hiid]
      rfl
  | none =>
    have hres : startPolling s id =
        { pollingFor := insert id s.pollingFor, iid := some s.nextT,
          live := insert s.nextT s.live, nextT := s.nextT + 1 } := by
      simp [startPolling, hiid]
    have hlive : s.live = ∅ := h2 hiid
    rw [hres]
    refine ⟨?_, ?_, ?_⟩
    · intro t' ht'
      obtain rfl : s.nextT = t' := by
        simpa using ht'
      simp [hlive]
    · intro hnone
      cases hnone
    · constructor
      · intro _
        exact ⟨id, Finset.mem_insert_self id s.pollingFor⟩
      · intro _
        rfl

/-- `stopPolling` preserves the polling invariant. -/
theorem pollInv_stop (s : PollState) (id : String) (hs : PollInv s) :
    PollInv (stopPolling s id) := by
  obtain ⟨h1, h2, h3⟩ := hs
  cases hiid : s.iid with
  | none =>
    have hres : stopPolling s id = s := by
      simp [stopPolling, hiid]
    rw [hres]
    exact ⟨h1, h2, h3⟩
  | some t =>
    by_cases hcard : (s.pollingFor.erase id).card = 0
    · have hres : stopPolling s id =
          { s with pollingFor := ∅, iid := none, live := s.live.erase t } := by
        simp [stopPolling, hiid, hcard]
      rw [hres]
      have hl : s.live = {t} := h1 t hiid
      refine ⟨?_, ?_, ?_⟩
      · intro t' ht'
        cases ht'
      · intro _
        rw [hl]
        simp
      · simp
    · have hres : stopPolling s id =
          { s with pollingFor := s.pollingFor.erase id } := by
        simp [stopPolling, hiid, hcard]
      rw [hres]
      refine ⟨fun t' ht' => h1 t' ht', fun hnone => h2 hnone, ?_⟩
      constructor
      · intro _
        exact Finset.card_pos.mp (Nat.pos_of_ne_zero hcard)
      · intro _
        rw [hiid]
        rfl

/-- Any sequence of polling calls preserves the invariant. -/
theorem pollInv_run (ops : List PollOp) (s : PollState) (hs : PollInv s) :
    PollInv (runPollOps s ops) := by
  induction ops generalizing s with
  | nil => exact hs
  | cons op rest ih =>
    cases op with
    | start id => exact ih _ (pollInv_start s id hs)
    | stop id => exact ih _ (pollInv_stop s id hs)

/-- C5: after any sequence of `startPolling`/`stopPolling` calls with
arbitrary requester ids on a self-updating device, at most one interval timer
is live; the timer runs exactly while the requester set is non-empty; two
further `startPolling` calls (with any, in particular distinct, requester
ids) leave exactly one live timer; `stopPolling` removes only the given
requester id from the set; and after a `stopPolling` the timer is cancelled
exactly when the set has become empty. -/
theorem c5_polling_refcount :
    ∀ ops : List PollOp,
      (runPollOps PollState.init ops).live.card ≤ 1
      ∧ ((runPollOps PollState.init ops).iid.isSome = true ↔
          (runPollOps PollState.init ops).pollingFor.Nonempty)
      ∧ (∀ a b, (startPolling (startPolling (runPollOps PollState.init ops) a) b).live.card = 1)
      ∧ (∀ id j, j ≠ id →
          (j ∈ (stopPolling (runPollOps PollState.init ops) id).pollingFor ↔
            j ∈ (runPollOps PollState.init ops).pollingFor))
      ∧ (∀ id, (stopPolling (runPollOps PollState.init ops) id).iid = none ↔
          (stopPolling (runPollOps PollState.init ops) id).pollingFor = ∅) := by
  intro ops
  have hinv := pollInv_run ops PollState.init pollInv_init
  set s := runPollOps PollState.init ops with hsdef
  obtain ⟨h1, h2, h3⟩ := hinv
  refine ⟨?_, h3, ?_, ?_, ?_⟩
  · cases hiid : s.iid with
    | some t =>
      rw [h1 t hiid]
      simp
    | none =>
      rw [h2 hiid]
      simp
  · intro a b
    have inv2 := pollInv_start (startPolling s a) b (pollInv_start s a ⟨h1, h2, h3⟩)
    obtain ⟨t, ht⟩ := Option.isSome_iff_exists.mp (startPolling_isSome (startPolling s a) b)
    rw [inv2.1 t ht]
    simp
  · intro id j hj
    cases hiid : s.iid with
    | none =>
      simp [stopPolling, hiid]
    | some t =>
      by_cases hcard : (s.pollingFor.erase id).card = 0
      · have hres : stopPolling s id =
            { s with pollingFor := ∅, iid := none, live := s.live.erase t } := by
          simp [stopPolling, hiid, hcard]
        rw [hres]
        have hempty : s.pollingFor.erase id = ∅ := Finset.card_eq_zero.mp hcard
        constructor
        · intro hmem
          exact absurd hmem (Finset.not_mem_empty j)
        · intro hmem
          have hj' : j ∈ s.pollingFor.erase id := Finset.mem_erase.mpr ⟨hj, hmem⟩
          rw [hempty] at hj'
          exact absurd hj' (Finset.not_mem_empty j)
      · have hres : stopPolling s id =
            { s with pollingFor := s.pollingFor.erase id } := by
          simp [stopPolling, hiid, hcard]
        rw [hres]
        constructor
        · intro hmem
          exact (Finset.mem_erase.mp hmem).2
        · intro hmem
          exact Finset.mem_erase.mpr ⟨hj, hmem⟩
  · intro id
    have hinv' := pollInv_stop s id ⟨h1, h2, h3⟩
    constructor
    · intro hnone
      by_contra hne
      have hne' : (stopPolling s id).pollingFor.Nonempty :=
        Finset.nonempty_iff_ne_empty.mpr hne
      have hsome := hinv'.2.2.mpr hne'
      rw [hnone] at hsome
      cases hsome
    · intro hemp
      cases hiidr : (stopPolling s id).iid with
      | none => rfl
      | some t =>
        have hne : (stopPolling s id).pollingFor.Nonempty :=
          hinv'.2.2.mp (by rw [hiidr]; rfl)
        rw [hemp] at hne
        exact absurd hne (by simp)
